import Mathlib

/-!
Shallow embedding of `password_checker.py` (class `PasswordStrengthChecker`):
the common-password list, the strength evaluator `check_password_strength`,
the entropy estimator `_calculate_entropy`, the crack-time projector
`_estimate_crack_time`, and the generator `generate_strong_password`.

Python strings are modelled as Lean `String` (a list of Unicode code
points, so `String.length` agrees with Python `len`).  Python floats are
modelled as real numbers, and the one reachable floating-point failure —
the OverflowError that `2 ** (entropy - 1)` raises once the exponent
reaches the double range — is modelled explicitly: `_estimate_crack_time`
and `check_password_strength` return `Option` values and `none` is the
raise.  Randomness is modelled by quantifying over the outcomes: an index
source for `random.choice` and the shuffled list for `random.shuffle`.
-/

open Real

/-- The literal set from `_load_common_passwords` (duplicates included;
membership is all that matters, mirroring the Python `set`). -/
def common_passwords : List String :=
  ["123456", "password", "123456789", "12345678", "12345", "qwerty", "abc123",
   "111111", "1234567", "123123", "admin", "letmein", "welcome", "monkey",
   "password123", "1234567890", "dragon", "master", "hello", "freedom",
   "whatever", "qazwsx", "trustno1", "jordan", "harley", "hunter", "buster",
   "thomas", "tigger", "robert", "soccer", "batman", "test", "pass", "killer",
   "hunter", "mike", "charlie", "andrew", "matthew", "access", "shadow",
   "michael", "jessica", "diamond", "jordan", "mustang", "mickey", "secret",
   "dallas", "dennis", "ginger", "striker", "hammer", "silver", "joseph",
   "blowme", "spitfire", "green", "superman", "bigdaddy", "johnson", "chester",
   "london", "midnight", "blue", "fishing", "david", "maddog", "eagles",
   "mackenzie", "donna", "murphy", "frank", "green", "lucky", "andrew",
   "charlie", "michael", "sarah", "jessica", "jordan", "tiger", "hunter",
   "michelle", "chris", "jessica", "amanda", "daniel", "joshua", "michael",
   "jennifer", "thomas", "jessica", "amanda", "daniel", "joshua", "michael",
   "jennifer", "thomas", "jessica", "amanda", "daniel", "joshua", "michael"]

/-- Per-character model of Python `str.lower()` (default, non-locale full
case mapping), exact with respect to comparison against pure-ASCII
strings.  The full Unicode lowercase algorithm maps A-Z to a-z and
U+212A KELVIN SIGN to "k"; these are the only code points whose lowercase
is a single ASCII character.  Every other character lowers to itself, to
another non-ASCII character, or to a string containing a non-ASCII
character (U+0130 lowers to "i" followed by U+0307; the conditional
final-sigma rule only chooses between the non-ASCII forms of sigma).
Such characters are kept unchanged here: both in Python and in this
model the resulting string then differs from every pure-ASCII string, so
membership in the all-ASCII common-password list agrees with Python on
every input. -/
def py_char_lower (c : Char) : Char :=
  if 'A' ≤ c && c ≤ 'Z' then Char.ofNat (c.toNat + 32)
  else if c = Char.ofNat 0x212A then 'k'
  else c

/-- Python `str.lower()` through `py_char_lower`: faithful wherever the
result is compared against an ASCII-only string, which is the only use
the program makes of it (the common-password membership test). -/
def pyLower (s : String) : String := ⟨s.data.map py_char_lower⟩

/-- The code points matched by the regex `[!@#$%^&*()_+\-=\[\]{};\':"\\|,.<>\/?]`
used both by `check_password_strength` and `_calculate_entropy`. -/
def checker_special_chars : List Char :=
  ['!', '@', '#', '$', '%', '^', '&', '*', '(', ')', '_', '+', '-', '=',
   '[', ']', Char.ofNat 0x7b, Char.ofNat 0x7d, ';', '\'', ':', '"', '\\',
   '|', ',', '.', '<', '>', '/', '?']

/-- The Unicode `Nd` (decimal digit) code-point ranges: Python's `re`
module matches `\d` against any Unicode decimal digit by default. -/
def nd_ranges : List (Nat × Nat) :=
  [(0x30, 0x39), (0x660, 0x669), (0x6F0, 0x6F9), (0x7C0, 0x7C9),
   (0x966, 0x96F), (0x9E6, 0x9EF), (0xA66, 0xA6F), (0xAE6, 0xAEF),
   (0xB66, 0xB6F), (0xBE6, 0xBEF), (0xC66, 0xC6F), (0xCE6, 0xCEF),
   (0xD66, 0xD6F), (0xDE6, 0xDEF), (0xE50, 0xE59), (0xED0, 0xED9),
   (0xF20, 0xF29), (0x1040, 0x1049), (0x1090, 0x1099), (0x17E0, 0x17E9),
   (0x1810, 0x1819), (0x1946, 0x194F), (0x19D0, 0x19D9), (0x1A80, 0x1A89),
   (0x1A90, 0x1A99), (0x1B50, 0x1B59), (0x1BB0, 0x1BB9), (0x1C40, 0x1C49),
   (0x1C50, 0x1C59), (0xA620, 0xA629), (0xA8D0, 0xA8D9), (0xA900, 0xA909),
   (0xA9D0, 0xA9D9), (0xA9F0, 0xA9F9), (0xAA50, 0xAA59), (0xABF0, 0xABF9),
   (0xFF10, 0xFF19), (0x104A0, 0x104A9), (0x10D30, 0x10D39),
   (0x11066, 0x1106F), (0x110F0, 0x110F9), (0x11136, 0x1113F),
   (0x111D0, 0x111D9), (0x112F0, 0x112F9), (0x11450, 0x11459),
   (0x114D0, 0x114D9), (0x11650, 0x11659), (0x116C0, 0x116C9),
   (0x11730, 0x11739), (0x118E0, 0x118E9), (0x11950, 0x11959),
   (0x11C50, 0x11C59), (0x11D50, 0x11D59), (0x11DA0, 0x11DA9),
   (0x16A60, 0x16A69), (0x16AC0, 0x16AC9), (0x16B50, 0x16B59),
   (0x1D7CE, 0x1D7FF), (0x1E140, 0x1E149), (0x1E2F0, 0x1E2F9),
   (0x1E950, 0x1E959), (0x1FBF0, 0x1FBF9)]

/-- `re.search(r'\d', ...)` per-character test: Unicode decimal digit. -/
def is_unicode_digit (c : Char) : Bool :=
  nd_ranges.any (fun r => r.1 ≤ c.toNat && c.toNat ≤ r.2)

/-- `re.search(r'[A-Z]', password)` as a Bool: some character in the
ASCII range A-Z (`Char.isUpper` is exactly that range test). -/
def has_upper (s : String) : Bool := s.data.any Char.isUpper

/-- `re.search(r'[a-z]', password)`: some character in the ASCII range a-z. -/
def has_lower (s : String) : Bool := s.data.any Char.isLower

/-- `re.search(r'\d', password)`: some Unicode decimal digit. -/
def has_digit (s : String) : Bool := s.data.any is_unicode_digit

/-- `re.search(r'[!@#$%^&*()_+\-=\[\]{};\':"\\|,.<>\/?]', password)`. -/
def has_special (s : String) : Bool :=
  s.data.any (fun c => checker_special_chars.contains c)

/-- The charset-size accumulation in `_calculate_entropy` (four `if
re.search` blocks adding 26, 26, 10, 32). -/
def charset_size (p : String) : ℕ :=
  (if has_lower p then 26 else 0) + (if has_upper p then 26 else 0)
    + (if has_digit p then 10 else 0) + (if has_special p then 32 else 0)

/-- `_calculate_entropy`: 0 for the empty password, 0 when no class is
present, otherwise `math.log2(charset_size ** len(password))`. -/
noncomputable def _calculate_entropy (password : String) : ℝ :=
  if password.length = 0 then 0
  else if charset_size password = 0 then 0
  else Real.logb 2 ((charset_size password : ℝ) ^ password.length)

/-- The value `_estimate_crack_time` formats: the branch taken by its
`if`/`elif` chain together with the number handed to the `:.1f` format
(whose decimal rendering is a float-presentation detail left abstract). -/
inductive CrackTime where
  | instant
  | lessThanOneSecond
  | seconds (x : ℝ)
  | minutes (x : ℝ)
  | hours (x : ℝ)
  | days (x : ℝ)
  | years (x : ℝ)

/-- The string `_estimate_crack_time` returns, given a formatter `fmt`
standing for Python's one-decimal float formatting `f"{x:.1f}"`. -/
def CrackTime.render (fmt : ℝ → String) : CrackTime → String
  | .instant => "Instant"
  | .lessThanOneSecond => "Less than 1 second"
  | .seconds x => fmt x ++ " seconds"
  | .minutes x => fmt x ++ " minutes"
  | .hours x => fmt x ++ " hours"
  | .days x => fmt x ++ " days"
  | .years x => fmt x ++ " years"

/-- `seconds = total_attempts / attempts_per_second` with
`total_attempts = 2 ** (entropy - 1)` (real exponent). -/
noncomputable def crack_seconds (entropy : ℝ) : ℝ :=
  (2 : ℝ) ^ (entropy - 1) / 1000000000

open Classical in
/-- `_estimate_crack_time`: "Instant" for entropy ≤ 0; otherwise Python
first evaluates `2 ** (entropy - 1)` in floating point, which raises
OverflowError as soon as the exponent reaches 1024 (the double range
ends at 2^1024), i.e. for entropy ≥ 1025 — modelled by `none`; below
that, the first matching strictly-less-than bracket is returned. -/
noncomputable def _estimate_crack_time (entropy : ℝ) : Option CrackTime :=
  if entropy ≤ 0 then some .instant
  else if (1024 : ℝ) ≤ entropy - 1 then none
  else if crack_seconds entropy < 1 then some .lessThanOneSecond
  else if crack_seconds entropy < 60 then some (.seconds (crack_seconds entropy))
  else if crack_seconds entropy < 3600 then some (.minutes (crack_seconds entropy / 60))
  else if crack_seconds entropy < 86400 then some (.hours (crack_seconds entropy / 3600))
  else if crack_seconds entropy < 31536000 then some (.days (crack_seconds entropy / 86400))
  else some (.years (crack_seconds entropy / 31536000))

/-- The `"checks"` sub-dictionary of the result. -/
structure Checks where
  length : Bool
  uppercase : Bool
  lowercase : Bool
  numbers : Bool
  special : Bool
deriving DecidableEq

/-- The result dictionary of `check_password_strength`.  Keys absent in
the short-circuit branches (empty / common password) are `none`. -/
structure Report where
  strength : String
  score : ℕ
  issues : List String
  recommendations : Option (List String)
  entropy : Option ℝ
  crack_time : Option CrackTime
  checks : Option Checks

/-- The score accumulation of `check_password_strength` written as a sum:
length contributes 0 (< 8), 2 (≥ 12) or 1 (8–11), and each of the four
composition flags contributes 1 when true. -/
def score_of (p : String) : ℕ :=
  (if p.length < 8 then 0 else if 12 ≤ p.length then 2 else 1)
    + (if has_upper p then 1 else 0) + (if has_lower p then 1 else 0)
    + (if has_digit p then 1 else 0) + (if has_special p then 1 else 0)

/-- The `issues` list accumulated by `check_password_strength`, in
program order (length, uppercase, lowercase, numbers, special). -/
def issues_of (p : String) : List String :=
  (if p.length < 8 then ["Password is too short (minimum 8 characters)"] else [])
    ++ (if has_upper p then [] else ["No uppercase letters"])
    ++ (if has_lower p then [] else ["No lowercase letters"])
    ++ (if has_digit p then [] else ["No numbers"])
    ++ (if has_special p then [] else ["No special characters"])

/-- The `recommendations` list accumulated by `check_password_strength`. -/
def recommendations_of (p : String) : List String :=
  (if p.length < 8 then ["Increase password length to at least 8 characters"] else [])
    ++ (if has_upper p then [] else ["Add uppercase letters (A-Z)"])
    ++ (if has_lower p then [] else ["Add lowercase letters (a-z)"])
    ++ (if has_digit p then [] else ["Add numbers (0-9)"])
    ++ (if has_special p then [] else ["Add special characters (!@#$%^&*...)"])

/-- The final `if score <= 2 / elif score <= 4 / else` tier mapping. -/
def strength_of (score : ℕ) : String :=
  if score ≤ 2 then "Weak" else if score ≤ 4 then "Moderate" else "Strong"

/-- `check_password_strength`: empty-password short circuit, common-password
short circuit, then scoring, entropy, crack time and tier.  `none` models
the OverflowError that `_estimate_crack_time` raises on the scoring path
for entropy ≥ 1025 and that propagates out of the function; both short
circuits return before entropy or crack time are computed and can never
raise. -/
noncomputable def check_password_strength (password : String) : Option Report :=
  if password.length = 0 then
    some { strength := "Weak", score := 0, issues := ["Password is empty"],
           recommendations := none, entropy := none, crack_time := none, checks := none }
  else if pyLower password ∈ common_passwords then
    some { strength := "Very Weak", score := 0,
           issues := ["Password is in the top 1000 common passwords list"],
           recommendations := some ["Choose a unique password that's not commonly used"],
           entropy := none, crack_time := none, checks := none }
  else
    match _estimate_crack_time (_calculate_entropy password) with
    | none => none
    | some ct =>
      some { strength := strength_of (score_of password),
             score := score_of password,
             issues := issues_of password,
             recommendations := some (recommendations_of password),
             entropy := some (_calculate_entropy password),
             crack_time := some ct,
             checks := some { length := decide (8 ≤ password.length),
                              uppercase := has_upper password,
                              lowercase := has_lower password,
                              numbers := has_digit password,
                              special := has_special password } }

/-- The report of a password whose evaluation returns one (arbitrary
fixed default otherwise); used to state concrete instances. -/
noncomputable def forced_report (password : String) : Report :=
  (check_password_strength password).getD
    { strength := "", score := 0, issues := [], recommendations := none,
      entropy := none, crack_time := none, checks := none }

/-- `string.ascii_lowercase`. -/
def ascii_lowercase : List Char :=
  ['a', 'b', 'c', 'd', 'e', 'f', 'g', 'h', 'i', 'j', 'k', 'l', 'm',
   'n', 'o', 'p', 'q', 'r', 's', 't', 'u', 'v', 'w', 'x', 'y', 'z']

/-- `string.ascii_uppercase`. -/
def ascii_uppercase : List Char :=
  ['A', 'B', 'C', 'D', 'E', 'F', 'G', 'H', 'I', 'J', 'K', 'L', 'M',
   'N', 'O', 'P', 'Q', 'R', 'S', 'T', 'U', 'V', 'W', 'X', 'Y', 'Z']

/-- `string.digits`. -/
def ascii_digits : List Char :=
  ['0', '1', '2', '3', '4', '5', '6', '7', '8', '9']

/-- The generator's special set `"!@#$%^&*()_+-=[]{}|;:,.<>?"`. -/
def gen_special_base : List Char :=
  ['!', '@', '#', '$', '%', '^', '&', '*', '(', ')', '_', '+', '-', '=',
   '[', ']', Char.ofNat 0x7b, Char.ofNat 0x7d, '|', ';', ':', ',', '.',
   '<', '>', '?']

/-- `lowercase`, after `replace('l','').replace('i','')` when
`exclude_similar` is set. -/
def gen_lowercase (exclude_similar : Bool) : List Char :=
  if exclude_similar then
    (ascii_lowercase.filter (fun c => c != 'l')).filter (fun c => c != 'i')
  else ascii_lowercase

/-- `uppercase`, after `replace('I','').replace('O','')` when
`exclude_similar` is set. -/
def gen_uppercase (exclude_similar : Bool) : List Char :=
  if exclude_similar then
    (ascii_uppercase.filter (fun c => c != 'I')).filter (fun c => c != 'O')
  else ascii_uppercase

/-- `digits`, after `replace('0','').replace('1','')` when
`exclude_similar` is set. -/
def gen_digits (exclude_similar : Bool) : List Char :=
  if exclude_similar then
    (ascii_digits.filter (fun c => c != '0')).filter (fun c => c != '1')
  else ascii_digits

/-- `special`, after `replace('|','').replace('I','')` (the second is a
no-op) when `exclude_similar` is set. -/
def gen_special (exclude_similar : Bool) : List Char :=
  if exclude_similar then
    (gen_special_base.filter (fun c => c != '|')).filter (fun c => c != 'I')
  else gen_special_base

/-- `all_chars = lowercase + uppercase + digits + special`. -/
def gen_all (exclude_similar : Bool) : List Char :=
  gen_lowercase exclude_similar ++ gen_uppercase exclude_similar
    ++ gen_digits exclude_similar ++ gen_special exclude_similar

/-- One outcome of `random.choice(s)`: the element at index `r % s.length`.
Quantifying over `r` ranges over every possible outcome; the default is
never reached because every alphabet the program passes is non-empty. -/
def py_choice (s : List Char) (r : ℕ) : Char := s.getD (r % s.length) ' '

/-- The character list built by `generate_strong_password` before the
final `random.shuffle`: the clamped length, one choice from each class,
then `length - 4` choices from `all_chars`.  `r` supplies the outcome of
the k-th `random.choice` call. -/
def generate_pre (length : ℕ) (exclude_similar : Bool) (r : ℕ → ℕ) : List Char :=
  let length := if length < 8 then 8 else length
  [py_choice (gen_lowercase exclude_similar) (r 0),
   py_choice (gen_uppercase exclude_similar) (r 1),
   py_choice (gen_digits exclude_similar) (r 2),
   py_choice (gen_special exclude_similar) (r 3)]
    ++ (List.range (length - 4)).map (fun i => py_choice (gen_all exclude_similar) (r (4 + i)))

/-- `generate_strong_password`: shuffle the built list and join it.
`shuffle` stands for the outcome of `random.shuffle`; theorems assume it
permutes its input. -/
def generate_strong_password (length : ℕ) (exclude_similar : Bool)
    (r : ℕ → ℕ) (shuffle : List Char → List Char) : String :=
  ⟨shuffle (generate_pre length exclude_similar r)⟩

/-! Helper lemmas shared by the claim theorems. -/

lemma pyLower_length (p : String) : (pyLower p).length = p.length :=
  List.length_map _ _

lemma common_passwords_ne_empty : ∀ s ∈ common_passwords, s.length ≠ 0 := by decide

lemma check_some_components (p : String) (report : Report) (h1 : p.length ≠ 0)
    (h2 : pyLower p ∉ common_passwords)
    (h : check_password_strength p = some report) :
    report.strength = strength_of (score_of p) ∧ report.score = score_of p ∧
    report.issues = issues_of p ∧
    report.recommendations = some (recommendations_of p) ∧
    report.checks = some { length := decide (8 ≤ p.length), uppercase := has_upper p,
                           lowercase := has_lower p, numbers := has_digit p,
                           special := has_special p } := by
  unfold check_password_strength at h
  rw [if_neg h1, if_neg h2] at h
  rcases hct : _estimate_crack_time (_calculate_entropy p) with _ | ct
  · rw [hct] at h
    exact absurd h (by simp)
  · rw [hct] at h
    injection h with h'
    subst h'
    exact ⟨rfl, rfl, rfl, rfl, rfl⟩

lemma estimate_some_of_lt {e : ℝ} (h : e < 1025) :
    ∃ ct, _estimate_crack_time e = some ct := by
  unfold _estimate_crack_time
  by_cases h0 : e ≤ 0
  · exact ⟨_, by rw [if_pos h0]⟩
  · rw [if_neg h0, if_neg (show ¬((1024 : ℝ) ≤ e - 1) by linarith)]
    split_ifs <;> exact ⟨_, rfl⟩

lemma charset_size_le_94 (p : String) : charset_size p ≤ 94 := by
  unfold charset_size
  split_ifs <;> omega

lemma le_logb_two_of_pow_le {k : ℕ} {x : ℝ} (hx : 0 < x) (h : (2 : ℝ) ^ k ≤ x) :
    (k : ℝ) ≤ Real.logb 2 x := by
  rw [Real.le_logb_iff_rpow_le one_lt_two hx, Real.rpow_natCast]
  exact h

lemma check_ne_none_of_entropy_lt (p : String) (h : _calculate_entropy p < 1025) :
    check_password_strength p ≠ none := by
  unfold check_password_strength
  split_ifs with h0 hcom
  · simp
  · simp
  · obtain ⟨ct, hct⟩ := estimate_some_of_lt h
    rw [hct]
    simp

lemma check_eq_some_forced (p : String) (h : check_password_strength p ≠ none) :
    check_password_strength p = some (forced_report p) := by
  cases hc : check_password_strength p with
  | none => exact absurd hc h
  | some r =>
      unfold forced_report
      rw [hc]
      rfl

lemma check_none_of_entropy_ge (p : String) (h1 : p.length ≠ 0)
    (h2 : pyLower p ∉ common_passwords)
    (h : (1025 : ℝ) ≤ _calculate_entropy p) :
    check_password_strength p = none := by
  have hest : _estimate_crack_time (_calculate_entropy p) = none := by
    unfold _estimate_crack_time
    rw [if_neg (by linarith), if_pos (by linarith)]
  unfold check_password_strength
  rw [if_neg h1, if_neg h2, hest]

lemma score_of_le_six (p : String) : score_of p ≤ 6 := by
  unfold score_of
  split_ifs <;> omega

lemma py_choice_mem (s : List Char) (r : ℕ) (h : s ≠ []) : py_choice s r ∈ s := by
  have hlt : r % s.length < s.length := Nat.mod_lt _ (List.length_pos.mpr h)
  unfold py_choice
  rw [List.getD_eq_getElem _ _ hlt]
  exact List.getElem_mem hlt

lemma gen_lowercase_ne (ex : Bool) : gen_lowercase ex ≠ [] := by cases ex <;> decide

lemma gen_uppercase_ne (ex : Bool) : gen_uppercase ex ≠ [] := by cases ex <;> decide

lemma gen_digits_ne (ex : Bool) : gen_digits ex ≠ [] := by cases ex <;> decide

lemma gen_special_ne (ex : Bool) : gen_special ex ≠ [] := by cases ex <;> decide

lemma gen_all_ne (ex : Bool) : gen_all ex ≠ [] := by cases ex <;> decide

lemma length_generate_pre (n : ℕ) (ex : Bool) (r : ℕ → ℕ) :
    (generate_pre n ex r).length = max n 8 := by
  simp only [generate_pre, List.length_append, List.length_map, List.length_range,
    List.length_cons, List.length_nil]
  split_ifs <;> omega

lemma mem_generate_pre (n : ℕ) (ex : Bool) (r : ℕ → ℕ) {c : Char}
    (h : c ∈ generate_pre n ex r) : c ∈ gen_all ex := by
  simp only [generate_pre, List.mem_append, List.mem_cons, List.not_mem_nil,
    or_false, List.mem_map, List.mem_range] at h
  rcases h with ((h | h | h | h) | ⟨i, _, h⟩) <;> subst h
  · exact List.mem_append_left _ (List.mem_append_left _
      (List.mem_append_left _ (py_choice_mem _ _ (gen_lowercase_ne ex))))
  · exact List.mem_append_left _ (List.mem_append_left _
      (List.mem_append_right _ (py_choice_mem _ _ (gen_uppercase_ne ex))))
  · exact List.mem_append_left _ (List.mem_append_right _
      (py_choice_mem _ _ (gen_digits_ne ex)))
  · exact List.mem_append_right _ (py_choice_mem _ _ (gen_special_ne ex))
  · exact py_choice_mem _ _ (gen_all_ne ex)

lemma pick_lower_mem_pre (n : ℕ) (ex : Bool) (r : ℕ → ℕ) :
    py_choice (gen_lowercase ex) (r 0) ∈ generate_pre n ex r := by
  simp [generate_pre]

lemma pick_upper_mem_pre (n : ℕ) (ex : Bool) (r : ℕ → ℕ) :
    py_choice (gen_uppercase ex) (r 1) ∈ generate_pre n ex r := by
  simp [generate_pre]

lemma pick_digit_mem_pre (n : ℕ) (ex : Bool) (r : ℕ → ℕ) :
    py_choice (gen_digits ex) (r 2) ∈ generate_pre n ex r := by
  simp [generate_pre]

lemma pick_special_mem_pre (n : ℕ) (ex : Bool) (r : ℕ → ℕ) :
    py_choice (gen_special ex) (r 3) ∈ generate_pre n ex r := by
  simp [generate_pre]

lemma gen_lowercase_sub (ex : Bool) : ∀ c ∈ gen_lowercase ex, c ∈ ascii_lowercase := by
  cases ex <;> decide

lemma gen_uppercase_sub (ex : Bool) : ∀ c ∈ gen_uppercase ex, c ∈ ascii_uppercase := by
  cases ex <;> decide

lemma gen_digits_sub (ex : Bool) : ∀ c ∈ gen_digits ex, c ∈ ascii_digits := by
  cases ex <;> decide

lemma gen_special_sub (ex : Bool) : ∀ c ∈ gen_special ex, c ∈ gen_special_base := by
  cases ex <;> decide

lemma gen_lowercase_isLower (ex : Bool) : ∀ c ∈ gen_lowercase ex, Char.isLower c = true := by
  cases ex <;> decide

lemma gen_uppercase_isUpper (ex : Bool) : ∀ c ∈ gen_uppercase ex, Char.isUpper c = true := by
  cases ex <;> decide

lemma gen_digits_isDigit (ex : Bool) : ∀ c ∈ gen_digits ex, is_unicode_digit c = true := by
  cases ex <;> decide

lemma gen_special_isSpecial (ex : Bool) :
    ∀ c ∈ gen_special ex, c ∈ checker_special_chars := by
  cases ex <;> decide

lemma gen_special_lower_fixed (ex : Bool) :
    ∀ c ∈ gen_special ex, py_char_lower c = c := by
  cases ex <;> decide

lemma gen_all_no_similar : ∀ c ∈ gen_all true, c ∉ ['l', 'i', 'I', 'O', '0', '1', '|'] := by
  decide

lemma common_passwords_no_special :
    ∀ s ∈ common_passwords, ∀ c ∈ s.data, c ∉ checker_special_chars := by
  decide

lemma strength_of_weak {s : ℕ} (h : s ≤ 2) : strength_of s = "Weak" := by
  unfold strength_of
  rw [if_pos h]

lemma strength_of_moderate {s : ℕ} (h3 : 3 ≤ s) (h4 : s ≤ 4) :
    strength_of s = "Moderate" := by
  unfold strength_of
  rw [if_neg (by omega), if_pos h4]

lemma strength_of_strong {s : ℕ} (h : 5 ≤ s) : strength_of s = "Strong" := by
  unfold strength_of
  rw [if_neg (by omega), if_neg (by omega)]

lemma strength_of_ne_very_weak (s : ℕ) : strength_of s ≠ "Very Weak" := by
  unfold strength_of
  split_ifs <;> decide

lemma entropy_eq_formula (p : String) :
    _calculate_entropy p = p.length * Real.logb 2 (charset_size p) := by
  unfold _calculate_entropy
  by_cases h0 : p.length = 0
  · rw [if_pos h0, h0]
    simp
  · rw [if_neg h0]
    by_cases hc : charset_size p = 0
    · rw [if_pos hc, hc]
      simp
    · rw [if_neg hc, Real.logb_pow]

lemma entropy_le_seven_mul (p : String) : _calculate_entropy p ≤ 7 * p.length := by
  rw [entropy_eq_formula]
  rcases Nat.eq_zero_or_pos (charset_size p) with h | h
  · rw [h]
    simp
  · have hcast : (0 : ℝ) < (charset_size p : ℝ) := by exact_mod_cast h
    have hle : Real.logb 2 (charset_size p) ≤ 7 := by
      rw [Real.logb_le_iff_le_rpow one_lt_two hcast,
        show (7 : ℝ) = ((7 : ℕ) : ℝ) by norm_num, Real.rpow_natCast,
        show ((2 : ℝ)) ^ (7 : ℕ) = 128 by norm_num]
      have h94 : ((charset_size p : ℝ)) ≤ 94 := by exact_mod_cast charset_size_le_94 p
      linarith
    calc (p.length : ℝ) * Real.logb 2 (charset_size p)
        ≤ (p.length : ℝ) * 7 := by
          exact mul_le_mul_of_nonneg_left hle (by positivity)
      _ = 7 * p.length := by ring

lemma entropy_lt_of_len_le {p : String} (h : p.length ≤ 146) :
    _calculate_entropy p < 1025 := by
  have h1 := entropy_le_seven_mul p
  have h2 : ((p.length : ℝ)) ≤ 146 := by exact_mod_cast h
  linarith

/-- C1: whenever evaluate returns a report for a non-empty password
outside the common-password set, its score starts at 0, gains 2 for
length ≥ 12, 1 for length 8–11, 0 below 8 (with the too-short issue and
recommendation appended instead), and gains 1 per true composition flag,
with an issue and a recommendation appended per false flag; the score
never exceeds 6, and evaluate "MyPassword123!" returns score 6 and tier
Strong. -/
theorem c1_score_formula (p : String) (report : Report) (h1 : p.length ≠ 0)
    (h2 : pyLower p ∉ common_passwords)
    (h : check_password_strength p = some report) :
    report.score
        = (if p.length < 8 then 0 else if 12 ≤ p.length then 2 else 1)
          + (if has_upper p then 1 else 0) + (if has_lower p then 1 else 0)
          + (if has_digit p then 1 else 0) + (if has_special p then 1 else 0) ∧
    (p.length < 8 →
      "Password is too short (minimum 8 characters)" ∈ report.issues ∧
      "Increase password length to at least 8 characters"
        ∈ report.recommendations.getD []) ∧
    (has_upper p = false → "No uppercase letters" ∈ report.issues ∧
      "Add uppercase letters (A-Z)" ∈ report.recommendations.getD []) ∧
    (has_lower p = false → "No lowercase letters" ∈ report.issues ∧
      "Add lowercase letters (a-z)" ∈ report.recommendations.getD []) ∧
    (has_digit p = false → "No numbers" ∈ report.issues ∧
      "Add numbers (0-9)" ∈ report.recommendations.getD []) ∧
    (has_special p = false → "No special characters" ∈ report.issues ∧
      "Add special characters (!@#$%^&*...)" ∈ report.recommendations.getD []) ∧
    report.score ≤ 6 ∧
    (check_password_strength "MyPassword123!").map Report.score = some 6 ∧
    (check_password_strength "MyPassword123!").map Report.strength = some "Strong" := by
  obtain ⟨hstr, hsc, hiss, hrec, hch⟩ := check_some_components p report h1 h2 h
  have hconc : check_password_strength "MyPassword123!"
      = some (forced_report "MyPassword123!") :=
    check_eq_some_forced _ (check_ne_none_of_entropy_lt _ (entropy_lt_of_len_le (by decide)))
  obtain ⟨cstr, csc, -, -, -⟩ :=
    check_some_components _ _ (by decide) (by decide) hconc
  refine ⟨?_, ?_, ?_, ?_, ?_, ?_, ?_, ?_, ?_⟩
  · rw [hsc]
    rfl
  · intro hlt
    rw [hiss, hrec]
    exact ⟨by simp [issues_of, hlt], by simp [recommendations_of, hlt]⟩
  · intro hf
    rw [hiss, hrec]
    exact ⟨by simp [issues_of, hf], by simp [recommendations_of, hf]⟩
  · intro hf
    rw [hiss, hrec]
    exact ⟨by simp [issues_of, hf], by simp [recommendations_of, hf]⟩
  · intro hf
    rw [hiss, hrec]
    exact ⟨by simp [issues_of, hf], by simp [recommendations_of, hf]⟩
  · intro hf
    rw [hiss, hrec]
    exact ⟨by simp [issues_of, hf], by simp [recommendations_of, hf]⟩
  · rw [hsc]
    exact score_of_le_six p
  · rw [hconc, Option.map_some', csc]
    decide
  · rw [hconc, Option.map_some', cstr]
    decide

theorem c1_witness :
    (forced_report "MyPassword123!").score ≤ 6 :=
  (c1_score_formula "MyPassword123!" (forced_report "MyPassword123!") (by decide) (by decide)
      (check_eq_some_forced _
        (check_ne_none_of_entropy_lt _ (entropy_lt_of_len_le (by decide))))).2.2.2.2.2.2.1

/-- C2: whenever the numeric scoring path returns a report, its tier is
determined by the score (≤ 2 Weak, 3–4 Moderate, ≥ 5 Strong) and is
never "Very Weak". -/
theorem c2_tier_map (p : String) (report : Report) (h1 : p.length ≠ 0)
    (h2 : pyLower p ∉ common_passwords)
    (h : check_password_strength p = some report) :
    (report.score ≤ 2 → report.strength = "Weak") ∧
    (3 ≤ report.score → report.score ≤ 4 → report.strength = "Moderate") ∧
    (5 ≤ report.score → report.strength = "Strong") ∧
    report.strength ≠ "Very Weak" := by
  obtain ⟨hstr, hsc, -, -, -⟩ := check_some_components p report h1 h2 h
  rw [hstr, hsc]
  exact ⟨fun h => strength_of_weak h, fun h3 h4 => strength_of_moderate h3 h4,
    fun h5 => strength_of_strong h5, strength_of_ne_very_weak _⟩

theorem c2_witness :
    (forced_report "MyPassword123!").strength ≠ "Very Weak" :=
  (c2_tier_map "MyPassword123!" (forced_report "MyPassword123!") (by decide) (by decide)
      (check_eq_some_forced _
        (check_ne_none_of_entropy_lt _ (entropy_lt_of_len_le (by decide))))).2.2.2

/-- C3: entropy is length × log2(charset size), where the charset size
sums 26/26/10/32 over the present classes; it is 0 when no class is
present (in particular for the empty password), and
entropy "aaaaaaaa" = 8 × log2 26. -/
theorem c3_entropy_formula (p : String) :
    _calculate_entropy p = p.length * Real.logb 2 (charset_size p) ∧
    (charset_size p = 0 → _calculate_entropy p = 0) ∧
    _calculate_entropy "" = 0 ∧
    _calculate_entropy "aaaaaaaa" = 8 * Real.logb 2 26 := by
  refine ⟨entropy_eq_formula p, ?_, ?_, ?_⟩
  · intro hc
    rw [entropy_eq_formula p, hc]
    simp
  · rw [entropy_eq_formula ""]
    simp
  · rw [entropy_eq_formula "aaaaaaaa",
      show ("aaaaaaaa" : String).length = 8 by decide,
      show charset_size "aaaaaaaa" = 26 by decide]
    norm_num

theorem c3_witness : charset_size "" = 0 ∧ _calculate_entropy "" = 0 :=
  ⟨by decide, (c3_entropy_formula "").2.1 (by decide)⟩

/-- C4 (counterexample): at entropy 2000 no years bracket is returned:
the floating-point power 2**(entropy − 1) overflows the double range and
`_estimate_crack_time` raises OverflowError instead of returning a
string. -/
theorem c4_counterexample : _estimate_crack_time 2000 = none := by
  unfold _estimate_crack_time
  rw [if_neg (by norm_num), if_pos (by norm_num)]

/-- C4 (amended): crack time is "Instant" for entropy ≤ 0; for
entropy − 1 ≥ 1024 the floating-point power 2**(entropy − 1) overflows
and the function raises (returns nothing); otherwise seconds =
2^(entropy−1)/10^9 and the first matching strictly-less-than bracket is
taken (sub-second, seconds, minutes, hours, days, years), and
crackTime 0 renders as "Instant". -/
theorem c4_crack_time (e : ℝ) :
    (e ≤ 0 → _estimate_crack_time e = some CrackTime.instant) ∧
    crack_seconds e = (2 : ℝ) ^ (e - 1) / 1000000000 ∧
    ((1024 : ℝ) ≤ e - 1 → _estimate_crack_time e = none) ∧
    (0 < e → e - 1 < 1024 → crack_seconds e < 1 →
      _estimate_crack_time e = some CrackTime.lessThanOneSecond) ∧
    (0 < e → e - 1 < 1024 → 1 ≤ crack_seconds e → crack_seconds e < 60 →
      _estimate_crack_time e = some (CrackTime.seconds (crack_seconds e))) ∧
    (0 < e → e - 1 < 1024 → 60 ≤ crack_seconds e → crack_seconds e < 3600 →
      _estimate_crack_time e = some (CrackTime.minutes (crack_seconds e / 60))) ∧
    (0 < e → e - 1 < 1024 → 3600 ≤ crack_seconds e → crack_seconds e < 86400 →
      _estimate_crack_time e = some (CrackTime.hours (crack_seconds e / 3600))) ∧
    (0 < e → e - 1 < 1024 → 86400 ≤ crack_seconds e → crack_seconds e < 31536000 →
      _estimate_crack_time e = some (CrackTime.days (crack_seconds e / 86400))) ∧
    (0 < e → e - 1 < 1024 → 31536000 ≤ crack_seconds e →
      _estimate_crack_time e = some (CrackTime.years (crack_seconds e / 31536000))) ∧
    (∀ fmt : ℝ → String,
      _estimate_crack_time 0 = some CrackTime.instant ∧
      CrackTime.instant.render fmt = "Instant") := by
  refine ⟨?_, rfl, ?_, ?_, ?_, ?_, ?_, ?_, ?_, ?_⟩
  · intro h
    unfold _estimate_crack_time
    rw [if_pos h]
  · intro hov
    unfold _estimate_crack_time
    rw [if_neg (by linarith), if_pos hov]
  · intro h0 hov hb
    unfold _estimate_crack_time
    rw [if_neg (not_le.mpr h0), if_neg (not_le.mpr hov), if_pos hb]
  · intro h0 hov ha hb
    unfold _estimate_crack_time
    rw [if_neg (not_le.mpr h0), if_neg (not_le.mpr hov), if_neg (not_lt.mpr ha),
      if_pos hb]
  · intro h0 hov ha hb
    unfold _estimate_crack_time
    rw [if_neg (not_le.mpr h0), if_neg (not_le.mpr hov), if_neg (by linarith),
      if_neg (not_lt.mpr ha), if_pos hb]
  · intro h0 hov ha hb
    unfold _estimate_crack_time
    rw [if_neg (not_le.mpr h0), if_neg (not_le.mpr hov), if_neg (by linarith),
      if_neg (by linarith), if_neg (not_lt.mpr ha), if_pos hb]
  · intro h0 hov ha hb
    unfold _estimate_crack_time
    rw [if_neg (not_le.mpr h0), if_neg (not_le.mpr hov), if_neg (by linarith),
      if_neg (by linarith), if_neg (by linarith), if_neg (not_lt.mpr ha), if_pos hb]
  · intro h0 hov ha
    unfold _estimate_crack_time
    rw [if_neg (not_le.mpr h0), if_neg (not_le.mpr hov), if_neg (by linarith),
      if_neg (by linarith), if_neg (by linarith), if_neg (by linarith),
      if_neg (not_lt.mpr ha)]
  · intro fmt
    refine ⟨?_, rfl⟩
    unfold _estimate_crack_time
    rw [if_pos le_rfl]

theorem c4_witness :
    _estimate_crack_time 0 = some CrackTime.instant ∧
    _estimate_crack_time 1 = some CrackTime.lessThanOneSecond :=
  ⟨(c4_crack_time 0).1 le_rfl,
    (c4_crack_time 1).2.2.2.1 one_pos (by norm_num) (by
      unfold crack_seconds
      rw [show (1 : ℝ) - 1 = 0 by norm_num, Real.rpow_zero]
      norm_num)⟩

/-- C5: a password whose lowercasing is in the common-password set gets
tier "Very Weak", score 0, one issue and one recommendation, and the
report carries no entropy, crack-time or checks fields. -/
theorem c5_common_short_circuit (p : String) (h : pyLower p ∈ common_passwords) :
    check_password_strength p =
      some { strength := "Very Weak", score := 0,
             issues := ["Password is in the top 1000 common passwords list"],
             recommendations := some ["Choose a unique password that's not commonly used"],
             entropy := none, crack_time := none, checks := none } := by
  have hne : p.length ≠ 0 := by
    have h0 := common_passwords_ne_empty _ h
    rw [pyLower_length] at h0
    exact h0
  unfold check_password_strength
  rw [if_neg hne, if_pos h]

theorem c5_witness :
    pyLower ⟨['m', 'o', 'n', Char.ofNat 0x212A, 'e', 'y']⟩ ∈ common_passwords ∧
    check_password_strength ⟨['m', 'o', 'n', Char.ofNat 0x212A, 'e', 'y']⟩ =
      some { strength := "Very Weak", score := 0,
             issues := ["Password is in the top 1000 common passwords list"],
             recommendations := some ["Choose a unique password that's not commonly used"],
             entropy := none, crack_time := none, checks := none } :=
  ⟨by decide, c5_common_short_circuit _ (by decide)⟩

/-- C6 (counterexample): evaluate "abc123" does not return score 2 and
tier Weak, because "abc123" is in the common-password set. -/
theorem c6_counterexample :
    ¬((check_password_strength "abc123").map Report.score = some 2 ∧
      (check_password_strength "abc123").map Report.strength = some "Weak") := by
  decide

/-- C6 (amended): evaluate "abc123" returns score 0 and tier "Very Weak"
via the common-password short circuit, since "abc123" is an entry of the
common-password set. -/
theorem c6_amended_common :
    (check_password_strength "abc123").map Report.score = some 0 ∧
    (check_password_strength "abc123").map Report.strength = some "Very Weak" ∧
    "abc123" ∈ common_passwords := by
  decide

/-- C7: for any requested length and any outcome of the random source,
generate with exclude-similar set returns a string of length max(n, 8)
containing a character of each of the four classes and no character of
the excluded-similar set. -/
theorem c7_generate_contract (n : ℕ) (r : ℕ → ℕ) (shuffle : List Char → List Char)
    (hs : (shuffle (generate_pre n true r)).Perm (generate_pre n true r)) :
    (generate_strong_password n true r shuffle).length = max n 8 ∧
    (∃ c ∈ (generate_strong_password n true r shuffle).data, c ∈ ascii_lowercase) ∧
    (∃ c ∈ (generate_strong_password n true r shuffle).data, c ∈ ascii_uppercase) ∧
    (∃ c ∈ (generate_strong_password n true r shuffle).data, c ∈ ascii_digits) ∧
    (∃ c ∈ (generate_strong_password n true r shuffle).data, c ∈ gen_special_base) ∧
    (∀ c ∈ (generate_strong_password n true r shuffle).data,
      c ∉ ['l', 'i', 'I', 'O', '0', '1', '|']) := by
  refine ⟨?_, ?_, ?_, ?_, ?_, ?_⟩
  · show (shuffle (generate_pre n true r)).length = max n 8
    rw [hs.length_eq, length_generate_pre]
  · exact ⟨py_choice (gen_lowercase true) (r 0),
      hs.mem_iff.mpr (pick_lower_mem_pre n true r),
      gen_lowercase_sub true _ (py_choice_mem _ _ (gen_lowercase_ne true))⟩
  · exact ⟨py_choice (gen_uppercase true) (r 1),
      hs.mem_iff.mpr (pick_upper_mem_pre n true r),
      gen_uppercase_sub true _ (py_choice_mem _ _ (gen_uppercase_ne true))⟩
  · exact ⟨py_choice (gen_digits true) (r 2),
      hs.mem_iff.mpr (pick_digit_mem_pre n true r),
      gen_digits_sub true _ (py_choice_mem _ _ (gen_digits_ne true))⟩
  · exact ⟨py_choice (gen_special true) (r 3),
      hs.mem_iff.mpr (pick_special_mem_pre n true r),
      gen_special_sub true _ (py_choice_mem _ _ (gen_special_ne true))⟩
  · intro c hc
    exact gen_all_no_similar c (mem_generate_pre n true r (hs.mem_iff.mp hc))

theorem c7_witness :
    (generate_strong_password 5 true (fun _ => 0) id).length = max 5 8 :=
  (c7_generate_contract 5 (fun _ => 0) id (List.Perm.refl _)).1

lemma entropy_nonneg (p : String) : 0 ≤ _calculate_entropy p := by
  unfold _calculate_entropy
  split_ifs with h0 hc
  · exact le_rfl
  · exact le_rfl
  · refine Real.logb_nonneg (by norm_num) ?_
    have h1 : (1 : ℝ) ≤ (charset_size p : ℝ) := by
      exact_mod_cast Nat.one_le_iff_ne_zero.mpr hc
    exact one_le_pow₀ h1

/-- C9: entropy is non-negative, and among passwords with the same set
of present composition classes it is monotone non-decreasing in length. -/
theorem c9_entropy_nonneg_mono (p q : String)
    (hl : has_lower p = has_lower q) (hu : has_upper p = has_upper q)
    (hd : has_digit p = has_digit q) (hsp : has_special p = has_special q)
    (hlen : p.length ≤ q.length) :
    0 ≤ _calculate_entropy p ∧ _calculate_entropy p ≤ _calculate_entropy q := by
  refine ⟨entropy_nonneg p, ?_⟩
  have hcs : charset_size p = charset_size q := by
    unfold charset_size
    rw [hl, hu, hd, hsp]
  by_cases hq0 : q.length = 0
  · have hp0 : p.length = 0 := by omega
    unfold _calculate_entropy
    rw [if_pos hp0, if_pos hq0]
  · by_cases hc : charset_size q = 0
    · have hcp : charset_size p = 0 := by rw [hcs]; exact hc
      have e1 : _calculate_entropy p = 0 := by simp [_calculate_entropy, hcp]
      have e2 : _calculate_entropy q = 0 := by simp [_calculate_entropy, hc]
      rw [e1, e2]
    · by_cases hp0 : p.length = 0
      · have e1 : _calculate_entropy p = 0 := by
          unfold _calculate_entropy
          rw [if_pos hp0]
        rw [e1]
        exact entropy_nonneg q
      · have hcp : charset_size p ≠ 0 := by rw [hcs]; exact hc
        have hone : (1 : ℝ) ≤ (charset_size q : ℝ) := by
          exact_mod_cast Nat.one_le_iff_ne_zero.mpr hc
        unfold _calculate_entropy
        rw [if_neg hp0, if_neg hq0, if_neg hcp, if_neg hc, hcs]
        refine Real.logb_le_logb_of_le (by norm_num) ?_ ?_
        · exact pow_pos (by linarith) _
        · exact pow_le_pow_right₀ hone hlen

theorem c9_witness :
    0 ≤ _calculate_entropy "aa" ∧ _calculate_entropy "aa" ≤ _calculate_entropy "aaa" :=
  c9_entropy_nonneg_mono "aa" "aaa" (by decide) (by decide) (by decide) (by decide)
    (by decide)

lemma isUpper_eq_range (c : Char) :
    Char.isUpper c = (decide ('A' ≤ c) && decide (c ≤ 'Z')) := rfl

lemma isLower_eq_range (c : Char) :
    Char.isLower c = (decide ('a' ≤ c) && decide (c ≤ 'z')) := rfl

/-- C8 (counterexample): the fullwidth digit U+FF11 is not an ASCII digit
(it is outside 0-9), yet the numbers composition flag of the report that
evaluate returns for it is true: Python's \d is Unicode-aware, so a
non-ASCII decimal digit does count toward the digit flag. -/
theorem c8_counterexample :
    ¬((Char.ofNat 0xFF11).isDigit = true) ∧
    ¬('0' ≤ Char.ofNat 0xFF11 ∧ Char.ofNat 0xFF11 ≤ '9') ∧
    check_password_strength ⟨[Char.ofNat 0xFF11]⟩
      = some (forced_report ⟨[Char.ofNat 0xFF11]⟩) ∧
    (forced_report ⟨[Char.ofNat 0xFF11]⟩).checks =
      some { length := false, uppercase := false, lowercase := false,
             numbers := true, special := false } := by
  have hconc : check_password_strength ⟨[Char.ofNat 0xFF11]⟩
      = some (forced_report ⟨[Char.ofNat 0xFF11]⟩) :=
    check_eq_some_forced _ (check_ne_none_of_entropy_lt _ (entropy_lt_of_len_le (by decide)))
  obtain ⟨-, -, -, -, hch⟩ :=
    check_some_components _ _ (by decide) (by decide) hconc
  refine ⟨by decide, by decide, hconc, ?_⟩
  rw [hch]
  decide

set_option maxRecDepth 100000 in
/-- C8 (amended): evaluate either returns a report or raises the
crack-time OverflowError; whenever it returns one, the tier is one of
the four and the score at most 6; letters are classified by the ASCII
ranges A-Z and a-z, but the digit flag follows Python's Unicode-aware
\d, so non-ASCII decimal digits do count toward it.  Evaluation returns
a report whenever the entropy stays below the overflow bound 1025, and
raises on long passwords such as 300 repeated "a" (entropy ≈ 1410). -/
theorem c8_amended_total (p : String) :
    (∀ report : Report, check_password_strength p = some report →
      (report.strength = "Weak" ∨ report.strength = "Very Weak" ∨
        report.strength = "Moderate" ∨ report.strength = "Strong") ∧
      report.score ≤ 6 ∧
      (∀ ch : Checks, report.checks = some ch →
        ch.uppercase = p.data.any (fun c => decide ('A' ≤ c) && decide (c ≤ 'Z')) ∧
        ch.lowercase = p.data.any (fun c => decide ('a' ≤ c) && decide (c ≤ 'z')) ∧
        ch.numbers = p.data.any is_unicode_digit)) ∧
    (_calculate_entropy p < 1025 → check_password_strength p ≠ none) ∧
    check_password_strength ⟨List.replicate 300 'a'⟩ = none := by
  refine ⟨?_, check_ne_none_of_entropy_lt p, ?_⟩
  · intro report h
    unfold check_password_strength at h
    split_ifs at h with h0 hcom
    · injection h with h'
      subst h'
      refine ⟨Or.inl rfl, Nat.zero_le 6, ?_⟩
      intro ch hch
      exact Option.noConfusion hch
    · injection h with h'
      subst h'
      refine ⟨Or.inr (Or.inl rfl), Nat.zero_le 6, ?_⟩
      intro ch hch
      exact Option.noConfusion hch
    · rcases hct : _estimate_crack_time (_calculate_entropy p) with _ | ct
      · rw [hct] at h
        exact absurd h (by simp)
      · rw [hct] at h
        injection h with h'
        subst h'
        refine ⟨?_, score_of_le_six p, ?_⟩
        · show (strength_of (score_of p) = "Weak" ∨ strength_of (score_of p) = "Very Weak" ∨
            strength_of (score_of p) = "Moderate" ∨ strength_of (score_of p) = "Strong")
          unfold strength_of
          split_ifs
          · exact Or.inl rfl
          · exact Or.inr (Or.inr (Or.inl rfl))
          · exact Or.inr (Or.inr (Or.inr rfl))
        · intro ch hch
          obtain rfl : ch = _ := (Option.some.inj hch).symm
          refine ⟨?_, ?_, rfl⟩
          · show has_upper p = _
            unfold has_upper
            rw [show Char.isUpper = fun c => decide ('A' ≤ c) && decide (c ≤ 'Z') from
              funext isUpper_eq_range]
          · show has_lower p = _
            unfold has_lower
            rw [show Char.isLower = fun c => decide ('a' ≤ c) && decide (c ≤ 'z') from
              funext isLower_eq_range]
  · have hlen : (⟨List.replicate 300 'a'⟩ : String).length = 300 := by decide
    have hcs : charset_size ⟨List.replicate 300 'a'⟩ = 26 := by decide
    have h26 : ((4 : ℕ) : ℝ) ≤ Real.logb 2 26 :=
      le_logb_two_of_pow_le (by norm_num) (by norm_num)
    have hent : (1025 : ℝ) ≤ _calculate_entropy ⟨List.replicate 300 'a'⟩ := by
      rw [entropy_eq_formula, hlen, hcs]
      have hm : (300 : ℝ) * 4 ≤ 300 * Real.logb 2 26 := by
        have := mul_le_mul_of_nonneg_left h26 (by norm_num : (0 : ℝ) ≤ 300)
        simpa using this
      push_cast
      linarith
    exact check_none_of_entropy_ge _ (by decide) (by decide) hent

theorem c8_witness :
    _calculate_entropy "Aa1!" < 1025 ∧ check_password_strength "Aa1!" ≠ none :=
  ⟨entropy_lt_of_len_le (by decide),
    (c8_amended_total "Aa1!").2.1 (entropy_lt_of_len_le (by decide))⟩

set_option maxRecDepth 100000 in
/-- C10 (counterexample): at requested length 300 the generated password
(here with zero random indices and the identity shuffle) has all four
classes and length 300, so its entropy 300·log2 94 exceeds the
crack-time overflow bound, and evaluate raises OverflowError instead of
returning tier Strong. -/
theorem c10_counterexample :
    check_password_strength (generate_strong_password 300 true (fun _ => 0) id)
      = none := by
  have hlen : (generate_strong_password 300 true (fun _ => 0) id).length = 300 := by
    decide
  have hcs : charset_size (generate_strong_password 300 true (fun _ => 0) id) = 94 := by
    decide
  have h94 : ((6 : ℕ) : ℝ) ≤ Real.logb 2 94 :=
    le_logb_two_of_pow_le (by norm_num) (by norm_num)
  have hent : (1025 : ℝ)
      ≤ _calculate_entropy (generate_strong_password 300 true (fun _ => 0) id) := by
    rw [entropy_eq_formula, hlen, hcs]
    have hm : (300 : ℝ) * 6 ≤ 300 * Real.logb 2 94 := by
      have := mul_le_mul_of_nonneg_left h94 (by norm_num : (0 : ℝ) ≤ 300)
      simpa using this
    push_cast
    linarith
  exact check_none_of_entropy_ge _ (by decide) (by decide) hent

/-- C10 (amended): for every requested length, exclude flag and random
outcome, whenever evaluate returns a report for the generated password
the tier is "Strong" with score at least 5: the password is at least 8
characters long, carries all four composition classes (the generator's
alphabet is inside the evaluator's classes), and its lowercasing is
never in the common-password set because it contains a special character
and no common-password entry does.  For generated lengths up to 146 the
evaluation does return a report; for large lengths the crack-time float
power overflows and evaluate raises instead (see the counterexample). -/
theorem c10_generated_is_strong (n : ℕ) (ex : Bool) (r : ℕ → ℕ)
    (shuffle : List Char → List Char)
    (hs : (shuffle (generate_pre n ex r)).Perm (generate_pre n ex r)) :
    (∀ report : Report,
      check_password_strength (generate_strong_password n ex r shuffle) = some report →
        report.strength = "Strong" ∧ 5 ≤ report.score) ∧
    (max n 8 ≤ 146 →
      (check_password_strength (generate_strong_password n ex r shuffle)).map
        Report.strength = some "Strong") := by
  set p : String := generate_strong_password n ex r shuffle with hp
  have hlen : p.length = max n 8 := by
    show (shuffle (generate_pre n ex r)).length = max n 8
    rw [hs.length_eq, length_generate_pre]
  have h8 : 8 ≤ p.length := by
    rw [hlen]
    omega
  have h1 : p.length ≠ 0 := by omega
  have hup : has_upper p = true := by
    unfold has_upper
    rw [List.any_eq_true]
    exact ⟨py_choice (gen_uppercase ex) (r 1),
      hs.mem_iff.mpr (pick_upper_mem_pre n ex r),
      gen_uppercase_isUpper ex _ (py_choice_mem _ _ (gen_uppercase_ne ex))⟩
  have hlow : has_lower p = true := by
    unfold has_lower
    rw [List.any_eq_true]
    exact ⟨py_choice (gen_lowercase ex) (r 0),
      hs.mem_iff.mpr (pick_lower_mem_pre n ex r),
      gen_lowercase_isLower ex _ (py_choice_mem _ _ (gen_lowercase_ne ex))⟩
  have hdig : has_digit p = true := by
    unfold has_digit
    rw [List.any_eq_true]
    exact ⟨py_choice (gen_digits ex) (r 2),
      hs.mem_iff.mpr (pick_digit_mem_pre n ex r),
      gen_digits_isDigit ex _ (py_choice_mem _ _ (gen_digits_ne ex))⟩
  have hspec : has_special p = true := by
    unfold has_special
    rw [List.any_eq_true]
    refine ⟨py_choice (gen_special ex) (r 3),
      hs.mem_iff.mpr (pick_special_mem_pre n ex r), ?_⟩
    exact List.elem_eq_true_of_mem
      (gen_special_isSpecial ex _ (py_choice_mem _ _ (gen_special_ne ex)))
  have hcom : pyLower p ∉ common_passwords := by
    intro hmem
    have hcsp_out : py_choice (gen_special ex) (r 3) ∈ p.data :=
      hs.mem_iff.mpr (pick_special_mem_pre n ex r)
    have htl : py_char_lower (py_choice (gen_special ex) (r 3))
        = py_choice (gen_special ex) (r 3) :=
      gen_special_lower_fixed ex _ (py_choice_mem _ _ (gen_special_ne ex))
    have hmemlow : py_choice (gen_special ex) (r 3) ∈ (pyLower p).data := by
      show _ ∈ p.data.map py_char_lower
      exact htl ▸ List.mem_map_of_mem py_char_lower hcsp_out
    exact common_passwords_no_special _ hmem _ hmemlow
      (gen_special_isSpecial ex _ (py_choice_mem _ _ (gen_special_ne ex)))
  have hscore5 : 5 ≤ score_of p := by
    unfold score_of
    rw [if_neg (by omega : ¬p.length < 8)]
    simp only [hup, hlow, hdig, hspec, if_true]
    split_ifs <;> omega
  refine ⟨?_, ?_⟩
  · intro report h
    obtain ⟨hstr, hsc, -, -, -⟩ := check_some_components p report h1 hcom h
    rw [hstr, hsc]
    exact ⟨strength_of_strong hscore5, hscore5⟩
  · intro hle
    have hlt : _calculate_entropy p < 1025 := by
      refine entropy_lt_of_len_le ?_
      rw [hlen]
      exact hle
    have hconc := check_eq_some_forced p (check_ne_none_of_entropy_lt p hlt)
    obtain ⟨hstr, -, -, -, -⟩ := check_some_components p _ h1 hcom hconc
    rw [hconc, Option.map_some', hstr, strength_of_strong hscore5]

theorem c10_witness :
    (check_password_strength
      (generate_strong_password 16 true (fun _ => 0) id)).map Report.strength
      = some "Strong" :=
  (c10_generated_is_strong 16 true (fun _ => 0) id (List.Perm.refl _)).2 (by decide)
